import Mathlib

/-!
Shallow embedding of the `StorageHelper` reactive persistent-storage core
(`src/renderer/utils/createStorage.ts`) and of the aggregated per-cluster
file store with its namespaced adapter (`src/renderer/local-storage.ts`).

JavaScript runtime values stored by a helper are modelled by the inductive
type `Val` (JSON-like values plus the distinct `undefined`).  Lodash
`isEqual` deep comparison is modelled by structural (decidable) equality on
`Val`.  The mobx observable box with its change-suppressing comparer is
modelled by an explicit guard in `StorageHelper.setOp`: a `set` whose new
value equals the current one commits no change and fires no observer, a
`set` with a different value commits the value first and then runs the
change listener (`StorageHelper.onChange`) synchronously.  Exceptions are
modelled with `Except`/`Option`: an operation result carries `some ()` in
its `thrown` field exactly when an uncaught exception escapes to the
caller of that operation.  Asynchronous `init` is split into the phase up
to the `await` of `getItem` and the continuation after it, so that
overlapping calls can be expressed by interleaving the phases.
-/

namespace Lens

mutual
/-- JSON-like runtime values, with JavaScript `undefined` kept distinct
from `null` (lodash `isEqual` distinguishes them, and `value != null`
rejects both). -/
inductive Val where
  | null
  | undef
  | bool (b : Bool)
  | num (n : Int)
  | str (s : String)
  | arr (xs : ValList)
  | obj (fs : ObjList)
deriving DecidableEq, Repr
inductive ValList where
  | nil
  | cons (v : Val) (rest : ValList)
deriving DecidableEq, Repr
inductive ObjList where
  | nil
  | cons (k : String) (v : Val) (rest : ObjList)
deriving DecidableEq, Repr
end

/-- `StorageHelper.hasValue`: the JavaScript test `value != null`, false
exactly for `null` and `undefined`. -/
def hasValue : Val → Bool
  | .null => false
  | .undef => false
  | _ => true

/-- The observable part of a `StorageHelper<T>` instance: its immutable
`key` and `defaultValue`, the current value held in the observable box
(`data`), and the monotonic `initialized` flag. -/
structure StorageHelper where
  key : String
  defaultValue : Val
  value : Val
  initialized : Bool
deriving DecidableEq, Repr

/-- Observable interactions between a helper and its storage adapter (and
the console), recorded in order of occurrence. -/
inductive Event where
  | getItem (key : String)
  | setItem (key : String) (v : Val)
  | hook (v : Val) (oldValue : Val)
  | logError
deriving DecidableEq, Repr

/-- A storage adapter over a backend of type `σ`: `getItem` may throw
(modelled by `Except.error`), `setItem` may throw or return the updated
backend, `hasOnChange` records whether the optional `onChange` hook is
defined on the adapter. -/
structure StorageAdapter (σ : Type) where
  getItem : σ → String → Except Unit Val
  setItem : σ → String → Val → Except Unit σ
  hasOnChange : Bool
deriving Inhabited

/-- Result of a synchronous helper operation: the helper state, the
backend state, the emitted adapter/console events, and `some ()` when an
uncaught exception escaped to the caller. -/
structure OpResult (σ : Type) where
  helper : StorageHelper
  backend : σ
  events : List Event
  thrown : Option Unit
deriving Repr

/-- The mobx observe listener path for a change the box has committed
(`StorageHelper.onChange` in `createStorage.ts`): the box already holds
`newValue`; if the helper is not yet `initialized` the listener returns at
once; otherwise it invokes the adapter's optional `onChange` hook and then
`setItem`.  `setItem` is not wrapped in any try/catch in this version, so
a `setItem` failure escapes (the committed value is not rolled back). -/
def commitValue (ad : StorageAdapter σ) (st : StorageHelper) (b : σ)
    (newValue : Val) : OpResult σ :=
  let st2 : StorageHelper := { st with value := newValue }
  if st.initialized then
    let hookEvents : List Event :=
      if ad.hasOnChange then [Event.hook newValue st.value] else []
    match ad.setItem b st.key newValue with
    | .ok b2 =>
        ⟨st2, b2, hookEvents ++ [Event.setItem st.key newValue], none⟩
    | .error _ =>
        ⟨st2, b, hookEvents ++ [Event.setItem st.key newValue], some ()⟩
  else
    ⟨st2, b, [], none⟩

/-- `StorageHelper.set`: `this.data.set(value)`.  The box comparer
(default `comparer.shallow`) suppresses the change notification when it
deems the new value equal to the current one; otherwise the change is
committed and the observe listener runs.  On the pure value domain the
comparer is modelled as structural equality.  This agrees with
`comparer.shallow` on primitives and on re-sets of the identical
reference, but the real comparer compares nested values by reference and
may therefore commit a freshly re-read deep-equal object that this model
suppresses — so no claim theorem relies on the suppression verdict for
non-primitive values. -/
def StorageHelper.setOp (ad : StorageAdapter σ) (st : StorageHelper) (b : σ)
    (v : Val) : OpResult σ :=
  if v = st.value then ⟨st, b, [], none⟩
  else commitValue ad st b v

/-- `StorageHelper.clear`: `this.data.set(null)`. -/
def StorageHelper.clearOp (ad : StorageAdapter σ) (st : StorageHelper) (b : σ) :
    OpResult σ :=
  StorageHelper.setOp ad st b Val.null

/-- A freshly constructed helper: the constructor seeds the box with
`defaultValue` synchronously (before the observer is attached, so the
seed fires no events) and `initialized` starts false. -/
def freshHelper (key : String) (defaultValue : Val) : StorageHelper :=
  { key := key, defaultValue := defaultValue, value := defaultValue
    initialized := false }

/-- `StorageHelper.isDefaultValue`: lodash deep `isEqual` against
`defaultValue`, modelled by structural equality on `Val`. -/
def StorageHelper.isDefaultValue (st : StorageHelper) (v : Val) : Bool :=
  v = st.defaultValue

/-- The continuation of `StorageHelper.init` after `await this.load()`
resumes with `resp` (the settled result of the adapter's `getItem`):
on rejection the `catch` block logs and returns — `initialized` is NOT
reached, it stays as it was; on a fulfilled value, the value is applied
through `set` when it is non-null and not deep-equal to `defaultValue`
(the listener fires before `initialized = true`, so no write-back), and
`initialized` becomes true. -/
def finishInit (ad : StorageAdapter σ) (st : StorageHelper) (b : σ)
    (resp : Except Unit Val) : StorageHelper × σ × List Event :=
  match resp with
  | .error _ => (st, b, [Event.logError])
  | .ok v =>
      if hasValue v && !(st.isDefaultValue v) then
        let r := StorageHelper.setOp ad st b v
        ({ r.helper with initialized := true }, r.backend, r.events)
      else
        ({ st with initialized := true }, b, [])

/-- One full `StorageHelper.init` call run to completion with no other
call interleaved: the guard `if (this.initialized) return` and then the
`getItem` read followed by its continuation.  `init` is an async function
whose body catches every error, so it never rejects: the result type has
no thrown component. -/
def runInit (ad : StorageAdapter σ) (st : StorageHelper) (b : σ) :
    StorageHelper × σ × List Event :=
  if st.initialized then (st, b, [])
  else
    let resp := ad.getItem b st.key
    let r := finishInit ad st b resp
    (r.1, r.2.1, Event.getItem st.key :: r.2.2)

/-- Two overlapping `init` calls on one helper: both pass the
`initialized` guard and each issues its own `getItem` before either
continuation runs (the guard flag is only set at the end of the
continuation); then the first continuation resumes, then the second.
Both reads hit the same backend state (no write happens in between), so
the two responses carry the same pure value, though in the program each
read may yield a distinct fresh object.  The second continuation runs
after the first already set `initialized`; whether its re-application of
the (deep-equal) loaded value is suppressed or committed depends on the
reference-based shallow comparer, which the pure value domain cannot
decide — so no theorem below draws conclusions from the continuations'
events of this schedule, only from its two reads. -/
def overlapTwoInits (ad : StorageAdapter σ) (st : StorageHelper) (b : σ) :
    StorageHelper × σ × List Event :=
  if st.initialized then (st, b, [])
  else
    let resp1 := ad.getItem b st.key
    let resp2 := ad.getItem b st.key
    let r1 := finishInit ad st b resp1
    let r2 := finishInit ad r1.1 r1.2.1 resp2
    (r2.1, r2.2.1,
      Event.getItem st.key :: Event.getItem st.key :: (r1.2.2 ++ r2.2.2))

/-- Outcome of an immer recipe that did not throw: either it returned a
replacement value, or it returned `undefined` and the (possibly mutated)
draft is finalized. -/
inductive UpdOutcome where
  | ret (v : Val)
  | void (draft : Val)
deriving DecidableEq, Repr

/-- The value an immer recipe outcome finalizes to. -/
def UpdOutcome.finalize : UpdOutcome → Val
  | .ret v => v
  | .void d => d

/-- The argument accepted by `StorageHelper.merge`: a literal partial
value, or an updater function (which may throw, modelled by `Except`). -/
inductive MergeArg where
  | literal (v : Val)
  | fn (f : Val → Except Unit UpdOutcome)

/-- `typeof value === "function" ? value : () => value`: a literal is
wrapped as a recipe that ignores the draft and returns the literal.
Immer treats a recipe that returns `undefined` as "use the (unmutated)
draft", not as "replace the state with `undefined`", so the wrapped
literal `undefined` finalizes to the draft itself. -/
def MergeArg.asUpdater : MergeArg → (Val → Except Unit UpdOutcome)
  | .literal v => fun d => .ok (if v = .undef then .void d else .ret v)
  | .fn f => f

/-- Immer `produce(base, recipe)`: the recipe runs on a draft of `base`
(the base itself is never mutated); a throw propagates, otherwise the
outcome finalizes to the produced value. -/
def produce (base : Val) (recipe : Val → Except Unit UpdOutcome) :
    Except Unit Val :=
  (recipe base).map UpdOutcome.finalize

/-- `StorageHelper.merge` (`createStorage.ts`, no try/catch): read a deep
copy of the current value, run `produce` with the updater, and `set` the
produced value.  An updater throw escapes before `set` is reached, so the
helper, backend and event trace are untouched in that case. -/
def StorageHelper.mergeOp (ad : StorageAdapter σ) (st : StorageHelper) (b : σ)
    (arg : MergeArg) : OpResult σ :=
  match produce st.value arg.asUpdater with
  | .error e => ⟨st, b, [], some e⟩
  | .ok nextValue => StorageHelper.setOp ad st b nextValue

/-- Number of `getItem` events in a trace. -/
def countGetItem : List Event → Nat
  | [] => 0
  | .getItem _ :: rest => countGetItem rest + 1
  | _ :: rest => countGetItem rest

/-- Number of `setItem` events in a trace. -/
def countSetItem : List Event → Nat
  | [] => 0
  | .setItem _ _ :: rest => countSetItem rest + 1
  | _ :: rest => countSetItem rest

/-- Number of adapter `onChange`-hook events in a trace. -/
def countHook : List Event → Nat
  | [] => 0
  | .hook _ _ :: rest => countHook rest + 1
  | _ :: rest => countHook rest

/-! ## Aggregated file store (`local-storage.ts`)

JavaScript string-keyed records and the observable map from cluster id to
record are modelled as association lists whose lookup takes the first
matching entry; `mapSet` overwrites in place or appends, `removeKey`
models `delete state[key]`. -/

/-- First-match association-list lookup (JavaScript property read). -/
def lookupKey (k : String) : List (String × α) → Option α
  | [] => none
  | (k2, v) :: rest => if k2 = k then some v else lookupKey k rest

/-- JavaScript property write `state[k] = v`: overwrite the existing
entry in place, or append a fresh one. -/
def mapSet (k : String) (v : α) : List (String × α) → List (String × α)
  | [] => [(k, v)]
  | (k2, w) :: rest =>
      if k2 = k then (k, v) :: rest else (k2, w) :: mapSet k v rest

/-- JavaScript `delete state[k]`: drop every entry with key `k`. -/
def removeKey (k : String) : List (String × α) → List (String × α)
  | [] => []
  | (k2, w) :: rest =>
      if k2 = k then removeKey k rest else (k2, w) :: removeKey k rest

/-- One namespace's record in the aggregated store. -/
abbrev LensLocalStorageState := List (String × Val)

/-- The whole aggregated store: cluster id → record. -/
abbrev LensLocalStorageModel := List (String × LensLocalStorageState)

/-- `LensLocalStorage.getState(clusterId)`: the record for the cluster,
or an empty record when absent (`?? {}`). -/
def getState (s : LensLocalStorageModel) (clusterId : String) :
    LensLocalStorageState :=
  match lookupKey clusterId s with
  | some r => r
  | none => []

/-- `LensLocalStorage.setState(clusterId, updater)`: run the updater over
an immer draft of a deep copy of the cluster's record and store the
produced record back under the cluster id. -/
def setState (s : LensLocalStorageModel) (clusterId : String)
    (updater : LensLocalStorageState → LensLocalStorageState) :
    LensLocalStorageModel :=
  mapSet clusterId (updater (getState s clusterId)) s

/-- `createLocalStorageAdapter(clusterId)`: `getItem` reads
`getState(clusterId)[key]` (an absent property reads as `undefined`);
`setItem` upserts a non-null value and deletes the key for a null or
undefined value; no `onChange` hook is defined. -/
def createLocalStorageAdapter (clusterId : String) :
    StorageAdapter LensLocalStorageModel where
  getItem := fun s k =>
    .ok (match lookupKey k (getState s clusterId) with
         | some v => v
         | none => .undef)
  setItem := fun s k v =>
    .ok (setState s clusterId fun state =>
          if hasValue v then mapSet k v state else removeKey k state)
  hasOnChange := false

/-- A sequence of aggregated-store writes `(clusterId, key, value)`,
each applied through the namespaced adapter's `setItem` path. -/
def runStoreWrites (s : LensLocalStorageModel) :
    List (String × String × Val) → LensLocalStorageModel
  | [] => s
  | (ns, k, v) :: rest =>
      runStoreWrites
        (setState s ns fun state =>
          if hasValue v then mapSet k v state else removeKey k state)
        rest

/-- No-tombstone invariant: no namespace record ever maps a key to an
explicit `null`/`undefined` entry. -/
def noTombstones (s : LensLocalStorageModel) : Prop :=
  ∀ ns k v, lookupKey k (getState s ns) = some v → hasValue v = true

/-! ## Concrete adapters used to instantiate witnesses -/

/-- A backend-less adapter whose `getItem` always settles to `resp` and
whose `setItem` succeeds; it defines the optional `onChange` hook. -/
def constAdapter (resp : Except Unit Val) : StorageAdapter Unit where
  getItem := fun _ _ => resp
  setItem := fun b _ _ => .ok b
  hasOnChange := true

/-- A backend-less adapter whose `setItem` always throws. -/
def failingWriteAdapter : StorageAdapter Unit where
  getItem := fun _ _ => .ok Val.null
  setItem := fun _ _ _ => .error ()
  hasOnChange := false

/-- Draft field assignment `draft[k] = w` as performed by a merge updater
on an object draft: overwrite the field in place, or append it. -/
def ObjList.setField (k : String) (w : Val) : ObjList → ObjList
  | .nil => .cons k w .nil
  | .cons k2 v rest =>
      if k2 = k then .cons k w rest else .cons k2 v (ObjList.setField k w rest)

/-- `draft[k] = w` on a value: only object drafts have assignable
fields. -/
def Val.setField (k : String) (w : Val) : Val → Val
  | .obj fs => .obj (fs.setField k w)
  | v => v

/-! ## General lemmas -/

/-- Property read after a property write at the same key. -/
theorem lookupKey_mapSet_same (k : String) (v : α) (l : List (String × α)) :
    lookupKey k (mapSet k v l) = some v := by
  induction l with
  | nil => simp [mapSet, lookupKey]
  | cons p rest ih =>
      rcases p with ⟨k2, w⟩
      by_cases h : k2 = k <;> simp [mapSet, lookupKey, h, ih]

/-- Property read after a property write at a different key. -/
theorem lookupKey_mapSet_other (k q : String) (v : α)
    (l : List (String × α)) (h : ¬ k = q) :
    lookupKey q (mapSet k v l) = lookupKey q l := by
  have h4 : ¬ q = k := fun hh => h hh.symm
  induction l with
  | nil => simp [mapSet, lookupKey, h]
  | cons p rest ih =>
      rcases p with ⟨k2, w⟩
      by_cases h2 : k2 = k
      · subst h2
        simp [mapSet, lookupKey, h]
      · by_cases h3 : k2 = q <;> simp [mapSet, lookupKey, h2, h3, h4, ih]

/-- Property read after `delete` at the same key. -/
theorem lookupKey_removeKey_same (k : String) (l : List (String × α)) :
    lookupKey k (removeKey k l) = none := by
  induction l with
  | nil => simp [removeKey, lookupKey]
  | cons p rest ih =>
      rcases p with ⟨k2, w⟩
      by_cases h : k2 = k <;> simp [removeKey, lookupKey, h, ih]

/-- Property read after `delete` at a different key. -/
theorem lookupKey_removeKey_other (k q : String) (l : List (String × α))
    (h : ¬ k = q) :
    lookupKey q (removeKey k l) = lookupKey q l := by
  have h4 : ¬ q = k := fun hh => h hh.symm
  induction l with
  | nil => simp [removeKey, lookupKey]
  | cons p rest ih =>
      rcases p with ⟨k2, w⟩
      by_cases h2 : k2 = k
      · subst h2
        simp [removeKey, lookupKey, h, h4, ih]
      · by_cases h3 : k2 = q <;> simp [removeKey, lookupKey, h2, h3, h4, ih]

/-- `getState` after `setState` on the same cluster id yields the
updated record. -/
theorem getState_setState_same (s : LensLocalStorageModel)
    (clusterId : String)
    (f : LensLocalStorageState → LensLocalStorageState) :
    getState (setState s clusterId f) clusterId = f (getState s clusterId) := by
  unfold getState setState
  rw [lookupKey_mapSet_same]
  rfl

/-- `setState` on one cluster id leaves every other namespace's record
alone. -/
theorem getState_setState_other (s : LensLocalStorageModel)
    (clusterId ns : String)
    (f : LensLocalStorageState → LensLocalStorageState) (h : ¬ clusterId = ns) :
    getState (setState s clusterId f) ns = getState s ns := by
  unfold getState setState
  rw [lookupKey_mapSet_other _ _ _ _ h]

/-- The empty store has no tombstones. -/
theorem noTombstones_nil : noTombstones [] := by
  intro ns k v h
  simp [getState, lookupKey] at h

/-- A single adapter write (upsert or delete) preserves the
no-tombstone invariant. -/
theorem noTombstones_write (s : LensLocalStorageModel) (ns k : String)
    (v : Val) (h : noTombstones s) :
    noTombstones (setState s ns fun state =>
      if hasValue v then mapSet k v state else removeKey k state) := by
  intro ns2 q w hw
  by_cases hns : ns = ns2
  · subst hns
    rw [getState_setState_same] at hw
    by_cases hv : hasValue v = true
    · rw [if_pos hv] at hw
      by_cases hk : k = q
      · subst hk
        rw [lookupKey_mapSet_same] at hw
        cases hw
        exact hv
      · rw [lookupKey_mapSet_other _ _ _ _ hk] at hw
        exact h _ _ _ hw
    · rw [if_neg hv] at hw
      by_cases hk : k = q
      · subst hk
        rw [lookupKey_removeKey_same] at hw
        cases hw
      · rw [lookupKey_removeKey_other _ _ _ hk] at hw
        exact h _ _ _ hw
  · rw [getState_setState_other _ _ _ _ hns] at hw
    exact h _ _ _ hw

/-- Every sequence of adapter writes preserves the no-tombstone
invariant. -/
theorem noTombstones_runStoreWrites (ops : List (String × String × Val)) :
    ∀ (s : LensLocalStorageModel), noTombstones s →
      noTombstones (runStoreWrites s ops) := by
  induction ops with
  | nil => exact fun s h => h
  | cons op rest ih =>
      intro s h
      rcases op with ⟨ns, k, v⟩
      exact ih _ (noTombstones_write s ns k v h)

/-- After `set(v)` the box holds `v` (whether or not the change was
suppressed by the comparer, and whether or not the persistence write
succeeded). -/
theorem StorageHelper.setOp_value (ad : StorageAdapter σ) (st : StorageHelper)
    (b : σ) (v : Val) :
    (StorageHelper.setOp ad st b v).helper.value = v := by
  unfold StorageHelper.setOp commitValue
  split
  · next h => exact h.symm
  · split
    · cases hset : ad.setItem b st.key v <;> simp [hset]
    · rfl

/-- A `set` on an uninitialized helper fires no adapter interaction,
leaves the backend alone and throws nothing; only the box is updated. -/
theorem StorageHelper.setOp_uninitialized (ad : StorageAdapter σ)
    (st : StorageHelper) (b : σ) (v : Val) (h : st.initialized = false) :
    StorageHelper.setOp ad st b v =
      (if v = st.value then ⟨st, b, [], none⟩
       else ⟨{ st with value := v }, b, [], none⟩ : OpResult σ) := by
  unfold StorageHelper.setOp commitValue
  rw [h]
  split <;> simp

/-- Characterization of the `init` continuation on a fulfilled `getItem`
when the helper is still uninitialized. -/
theorem finishInit_ok (ad : StorageAdapter σ) (st : StorageHelper) (b : σ)
    (v : Val) (h : st.initialized = false) :
    finishInit ad st b (.ok v) =
      if hasValue v && !(st.isDefaultValue v)
      then ({ st with value := v, initialized := true }, b, ([] : List Event))
      else ({ st with initialized := true }, b, []) := by
  by_cases hguard : (hasValue v && !(st.isDefaultValue v)) = true
  · by_cases heq : v = st.value
    · subst heq
      simp [finishInit, hguard,
        StorageHelper.setOp_uninitialized ad st b st.value h]
    · simp [finishInit, hguard, StorageHelper.setOp_uninitialized ad st b v h,
        heq]
  · simp [finishInit, hguard]

/-- Splitting a `getItem` count over concatenated traces. -/
theorem countGetItem_append (l1 l2 : List Event) :
    countGetItem (l1 ++ l2) = countGetItem l1 + countGetItem l2 := by
  induction l1 with
  | nil => simp [countGetItem]
  | cons e rest ih =>
      cases e <;> simp [countGetItem, ih]
      omega

/-- A `set` never performs a backend read. -/
theorem countGetItem_setOp (ad : StorageAdapter σ) (st : StorageHelper)
    (b : σ) (v : Val) :
    countGetItem (StorageHelper.setOp ad st b v).events = 0 := by
  unfold StorageHelper.setOp commitValue
  split
  · rfl
  · split
    · cases hset : ad.setItem b st.key v <;>
        by_cases hh : ad.hasOnChange = true <;>
          simp [hset, hh, countGetItem]
    · rfl

/-- The continuation of `init` after the `await` never performs another
backend read: its `getItem` already happened before the suspension. -/
theorem countGetItem_finishInit (ad : StorageAdapter σ) (st : StorageHelper)
    (b : σ) (resp : Except Unit Val) :
    countGetItem (finishInit ad st b resp).2.2 = 0 := by
  cases resp with
  | error e => simp [finishInit, countGetItem]
  | ok v =>
      simp only [finishInit]
      split
      · exact countGetItem_setOp ad st b v
      · rfl

/-! ## Claim theorems -/

/-- C1: after `init()` resolves on a freshly constructed helper whose
adapter `getItem` fulfilled with `v`: if `v` is non-null and not
deep-equal to the default, `get()` equals `v`; if `v` is null/undefined
or deep-equal to the default, `get()` still equals the default; and in
both cases `init()` performs no `setItem` write-back. -/
theorem init_no_writeback_applies_value (σ : Type) (ad : StorageAdapter σ)
    (b : σ) (k : String) (D v : Val)
    (hresp : ad.getItem b k = .ok v) :
    ((hasValue v = true ∧ v ≠ D) →
      (runInit ad (freshHelper k D) b).1.value = v) ∧
    ((hasValue v = false ∨ v = D) →
      (runInit ad (freshHelper k D) b).1.value = D) ∧
    countSetItem (runInit ad (freshHelper k D) b).2.2 = 0 := by
  have h0 : (freshHelper k D).initialized = false := rfl
  have hdef : (freshHelper k D).isDefaultValue v = decide (v = D) := rfl
  have hval : (freshHelper k D).value = D := rfl
  have hkey : (freshHelper k D).key = k := rfl
  by_cases hv : hasValue v = true <;> by_cases hd : v = D <;>
    simp [runInit, hresp, h0, hkey, finishInit_ok _ _ _ _ h0, hdef, hval,
      hv, hd, countSetItem]

/-- C1 witness: a concrete fresh helper over the backend-less adapter
whose `getItem` fulfills with `5`, which differs from the default. -/
theorem init_no_writeback_applies_value_witness :
    ((hasValue (Val.num 5) = true ∧ Val.num 5 ≠ Val.null) →
      (runInit (constAdapter (.ok (.num 5))) (freshHelper "k" .null)
        ()).1.value = .num 5) ∧
    ((hasValue (Val.num 5) = false ∨ Val.num 5 = Val.null) →
      (runInit (constAdapter (.ok (.num 5))) (freshHelper "k" .null)
        ()).1.value = .null) ∧
    countSetItem (runInit (constAdapter (.ok (.num 5)))
      (freshHelper "k" .null) ()).2.2 = 0 :=
  init_no_writeback_applies_value Unit (constAdapter (.ok (.num 5))) ()
    "k" .null (.num 5) rfl

/-- C2: a change committed to the observable box while `initialized` is
false runs neither the adapter's `onChange` hook nor `setItem`; a change
committed after `initialized` is true fires, exactly once, the optional
`onChange` hook (when the adapter defines one) followed by the `setItem`
persistence write. -/
theorem change_commit_gated_on_initialized (σ : Type) (ad : StorageAdapter σ)
    (st : StorageHelper) (b : σ) (v : Val) :
    (st.initialized = false → (commitValue ad st b v).events = []) ∧
    (st.initialized = true →
      (commitValue ad st b v).events =
        (if ad.hasOnChange then [Event.hook v st.value] else [])
          ++ [Event.setItem st.key v] ∧
      countHook (commitValue ad st b v).events =
        (if ad.hasOnChange then 1 else 0) ∧
      countSetItem (commitValue ad st b v).events = 1) := by
  constructor
  · intro h
    simp [commitValue, h]
  · intro h
    cases hset : ad.setItem b st.key v <;>
      by_cases hh : ad.hasOnChange = true <;>
        simp [commitValue, h, hset, hh, countHook, countSetItem]

/-- C2 witness: a concrete committed change before and after
initialization, over the backend-less hook-defining adapter. -/
theorem change_commit_gated_on_initialized_witness :
    ((freshHelper "k" Val.null).initialized = false →
      (commitValue (constAdapter (.ok .null)) (freshHelper "k" .null) ()
        (.num 1)).events = []) ∧
    ((freshHelper "k" Val.null).initialized = true →
      (commitValue (constAdapter (.ok .null)) (freshHelper "k" .null) ()
        (.num 1)).events =
        (if (constAdapter (.ok .null)).hasOnChange
         then [Event.hook (.num 1) (freshHelper "k" Val.null).value]
         else []) ++ [Event.setItem (freshHelper "k" Val.null).key (.num 1)] ∧
      countHook (commitValue (constAdapter (.ok .null))
        (freshHelper "k" .null) () (.num 1)).events =
        (if (constAdapter (.ok .null)).hasOnChange then 1 else 0) ∧
      countSetItem (commitValue (constAdapter (.ok .null))
        (freshHelper "k" .null) () (.num 1)).events = 1) :=
  change_commit_gated_on_initialized Unit (constAdapter (.ok .null))
    (freshHelper "k" .null) () (.num 1)

/-- C3: `merge` with a function updater sets the value to the result of
running the updater on a draft of the current value: the finalized
outcome of `f` applied to the snapshot.  The concrete instance from the
spec: `merge(draft => { draft.a = 1 })` on `{a: 0, b: 2}` yields
`{a: 1, b: 2}`, and the draft assignment re-uses the untouched `b`
branch; the base snapshot is never mutated (in this pure embedding
`produce` is a function of the base, which is left as-is by
construction). -/
theorem merge_applies_updater_immutably (σ : Type) (ad : StorageAdapter σ)
    (st : StorageHelper) (b : σ) (f : Val → UpdOutcome) :
    (StorageHelper.mergeOp ad st b (.fn fun d => .ok (f d))).helper.value
      = (f st.value).finalize ∧
    (StorageHelper.mergeOp (constAdapter (.ok .null))
        { key := "k", defaultValue := .null,
          value := Val.obj (.cons "a" (.num 0) (.cons "b" (.num 2) .nil)),
          initialized := true } ()
        (.fn fun d => .ok (.void (Val.setField "a" (.num 1) d)))).helper.value
      = Val.obj (.cons "a" (.num 1) (.cons "b" (.num 2) .nil)) ∧
    Val.setField "a" (.num 1)
        (Val.obj (.cons "a" (.num 0) (.cons "b" (.num 2) .nil)))
      = Val.obj (.cons "a" (.num 1) (.cons "b" (.num 2) .nil)) := by
  refine ⟨?_, by decide, by decide⟩
  show (StorageHelper.setOp ad st b (f st.value).finalize).helper.value = _
  exact StorageHelper.setOp_value ad st b (f st.value).finalize

/-- C6: an updater that throws when applied propagates its exception out
of `merge` (no catch inside `merge` in this version), and the helper
value, the backend and the event trace are untouched. -/
theorem merge_updater_throw_propagates (σ : Type) (ad : StorageAdapter σ)
    (st : StorageHelper) (b : σ) (f : Val → Except Unit UpdOutcome)
    (h : f st.value = .error ()) :
    StorageHelper.mergeOp ad st b (.fn f) = ⟨st, b, [], some ()⟩ := by
  simp [StorageHelper.mergeOp, produce, MergeArg.asUpdater, h, Except.map]

/-- C6 witness: a concrete always-throwing updater on a concrete
initialized helper. -/
theorem merge_updater_throw_propagates_witness :
    StorageHelper.mergeOp (constAdapter (.ok .null))
        { key := "k", defaultValue := .null, value := .num 0,
          initialized := true } ()
        (.fn fun _ => .error ()) =
      ⟨{ key := "k", defaultValue := .null, value := .num 0,
         initialized := true }, (), [], some ()⟩ :=
  merge_updater_throw_propagates Unit (constAdapter (.ok .null))
    { key := "k", defaultValue := .null, value := .num 0,
      initialized := true } () (fun _ => .error ()) rfl

/-- C10 counterexample: `merge(undefined)` does not replace the value
with `undefined`.  The literal is wrapped as the recipe
`() => undefined`, and immer treats a recipe returning `undefined` as
"use the draft": on current value `{a: 0, b: 2}` the value stays
`{a: 0, b: 2}`, refuting the universal "the resulting value is `P`
itself" at `P = undefined`. -/
theorem merge_literal_undefined_keeps_value_cex :
    (StorageHelper.mergeOp (constAdapter (.ok .null))
        { key := "k", defaultValue := .null,
          value := Val.obj (.cons "a" (.num 0) (.cons "b" (.num 2) .nil)),
          initialized := true } () (.literal .undef)).helper.value
      = Val.obj (.cons "a" (.num 0) (.cons "b" (.num 2) .nil)) ∧
    ¬ (StorageHelper.mergeOp (constAdapter (.ok .null))
        { key := "k", defaultValue := .null,
          value := Val.obj (.cons "a" (.num 0) (.cons "b" (.num 2) .nil)),
          initialized := true } () (.literal .undef)).helper.value
      = Val.undef := by
  decide

/-- C10 amended: `merge` with a non-function literal `P` other than
`undefined` wraps it as the recipe `() => P`, whose return value
replaces the whole current value: the result is `P` itself, not a deep
merge — concretely, `merge({a: 1})` on `{a: 0, b: 2}` yields `{a: 1}`,
dropping `b`.  In the boundary case `merge(undefined)`, immer's
returned-`undefined` rule keeps the draft, so the value is unchanged. -/
theorem merge_literal_wholesale_replace (σ : Type) (ad : StorageAdapter σ)
    (st : StorageHelper) (b : σ) (P : Val) (hP : ¬ P = Val.undef) :
    (StorageHelper.mergeOp ad st b (.literal P)).helper.value = P ∧
    (StorageHelper.mergeOp (constAdapter (.ok .null))
        { key := "k", defaultValue := .null,
          value := Val.obj (.cons "a" (.num 0) (.cons "b" (.num 2) .nil)),
          initialized := true } ()
        (.literal (Val.obj (.cons "a" (.num 1) .nil)))).helper.value
      = Val.obj (.cons "a" (.num 1) .nil) ∧
    (StorageHelper.mergeOp ad st b (.literal Val.undef)).helper.value
      = st.value := by
  refine ⟨?_, by decide, ?_⟩
  · have hprod : produce st.value (MergeArg.asUpdater (.literal P))
        = .ok P := by
      simp [produce, MergeArg.asUpdater, hP, Except.map, UpdOutcome.finalize]
    simp only [StorageHelper.mergeOp, hprod]
    exact StorageHelper.setOp_value ad st b P
  · have hprod : produce st.value (MergeArg.asUpdater (.literal Val.undef))
        = .ok st.value := by
      simp [produce, MergeArg.asUpdater, Except.map, UpdOutcome.finalize]
    simp only [StorageHelper.mergeOp, hprod]
    exact StorageHelper.setOp_value ad st b st.value

/-- C10 amended witness: a concrete non-undefined literal on a concrete
initialized helper. -/
theorem merge_literal_wholesale_replace_witness :
    (StorageHelper.mergeOp (constAdapter (.ok .null))
      { key := "k", defaultValue := .null, value := .num 0,
        initialized := true } () (.literal (.num 9))).helper.value
      = Val.num 9 ∧
    (StorageHelper.mergeOp (constAdapter (.ok .null))
        { key := "k", defaultValue := .null,
          value := Val.obj (.cons "a" (.num 0) (.cons "b" (.num 2) .nil)),
          initialized := true } ()
        (.literal (Val.obj (.cons "a" (.num 1) .nil)))).helper.value
      = Val.obj (.cons "a" (.num 1) .nil) ∧
    (StorageHelper.mergeOp (constAdapter (.ok .null))
      { key := "k", defaultValue := .null, value := .num 0,
        initialized := true } () (.literal Val.undef)).helper.value
      = ({ key := "k", defaultValue := .null, value := .num 0,
           initialized := true } : StorageHelper).value :=
  merge_literal_wholesale_replace Unit (constAdapter (.ok .null))
    { key := "k", defaultValue := .null, value := .num 0,
      initialized := true } () (.num 9) (by decide)

/-- C4 counterexample: on a fresh helper whose adapter `getItem` rejects,
`init()` is caught and logged, but `initialized = true` sits inside the
`try` after the failing `await`, so it is never reached: afterwards
`initialized` is still false, contradicting the claim that it is true
whether `getItem` succeeded or threw. -/
theorem init_getItem_failure_cex :
    (runInit (constAdapter (.error ())) (freshHelper "k" .null)
      ()).1.initialized = false ∧
    (runInit (constAdapter (.error ())) (freshHelper "k" .null) ()).2.2 =
      [Event.getItem "k", Event.logError] := by
  decide

/-- C4 amended: when the single `init()` attempt completes, a `getItem`
failure is caught and logged and never surfaces to the caller (`runInit`
is total: the catch swallows the rejection), and the in-memory value
remains the default — but `initialized` is true afterwards only when
`getItem` succeeded; on a failure it remains false. -/
theorem init_error_caught_keeps_default (σ : Type) (ad : StorageAdapter σ)
    (st : StorageHelper) (b : σ) (hinit : st.initialized = false) :
    (∀ v, ad.getItem b st.key = .ok v →
      (runInit ad st b).1.initialized = true) ∧
    (∀ e, ad.getItem b st.key = .error e →
      (runInit ad st b).1 = st ∧
      (runInit ad st b).2.1 = b ∧
      (runInit ad st b).2.2 = [Event.getItem st.key, Event.logError] ∧
      countSetItem (runInit ad st b).2.2 = 0) := by
  constructor
  · intro v hv
    by_cases hguard : (hasValue v && !(st.isDefaultValue v)) = true <;>
      simp [runInit, hinit, hv, finishInit_ok _ _ _ _ hinit, hguard]
  · intro e he
    simp [runInit, hinit, he, finishInit, countSetItem]

/-- C4 amended witness: the concrete always-rejecting adapter on a fresh
helper. -/
theorem init_error_caught_keeps_default_witness :
    (∀ v, (constAdapter (.error ())).getItem () (freshHelper "k" Val.null).key
        = .ok v →
      (runInit (constAdapter (.error ())) (freshHelper "k" .null)
        ()).1.initialized = true) ∧
    (∀ e, (constAdapter (.error ())).getItem ()
        (freshHelper "k" Val.null).key = .error e →
      (runInit (constAdapter (.error ())) (freshHelper "k" .null) ()).1 =
        freshHelper "k" .null ∧
      (runInit (constAdapter (.error ())) (freshHelper "k" .null) ()).2.1
        = () ∧
      (runInit (constAdapter (.error ())) (freshHelper "k" .null) ()).2.2 =
        [Event.getItem (freshHelper "k" Val.null).key, Event.logError] ∧
      countSetItem (runInit (constAdapter (.error ()))
        (freshHelper "k" .null) ()).2.2 = 0) :=
  init_error_caught_keeps_default Unit (constAdapter (.error ()))
    (freshHelper "k" .null) () rfl

/-- C5 counterexample: on a fresh helper, two overlapping `init()` calls
(both passing the `initialized` guard before either continuation runs)
issue `getItem` twice, while a single `init()` issues it once — the
observable adapter interactions differ, refuting single-flight. -/
theorem init_overlap_double_read_cex :
    countGetItem (overlapTwoInits (constAdapter (.ok (.num 5)))
      (freshHelper "k" .null) ()).2.2 = 2 ∧
    countGetItem (runInit (constAdapter (.ok (.num 5)))
      (freshHelper "k" .null) ()).2.2 = 1 ∧
    (overlapTwoInits (constAdapter (.ok (.num 5)))
        (freshHelper "k" .null) ()).2.2 ≠
      (runInit (constAdapter (.ok (.num 5))) (freshHelper "k" .null)
        ()).2.2 := by
  decide

/-- C5 amended: `init()` after `initialized` is true is a no-op.  But
`init()` is not single-flight: the only guard is `initialized`, set at
the end of the attempt, so a second call starting while the first still
awaits `getItem` also passes the guard and re-runs the load — `getItem`
fires once per overlapping call, two backend reads where a single call
performs one. -/
theorem init_noop_when_initialized_overlap_rereads (σ : Type)
    (ad : StorageAdapter σ) (st : StorageHelper) (b : σ) :
    (st.initialized = true → runInit ad st b = (st, b, [])) ∧
    (st.initialized = false →
      countGetItem (overlapTwoInits ad st b).2.2 = 2 ∧
      countGetItem (runInit ad st b).2.2 = 1) := by
  constructor
  · intro h
    simp [runInit, h]
  · intro h
    have e1 := countGetItem_finishInit ad st b (ad.getItem b st.key)
    have e2 := countGetItem_finishInit ad
      (finishInit ad st b (ad.getItem b st.key)).1
      (finishInit ad st b (ad.getItem b st.key)).2.1
      (ad.getItem b st.key)
    constructor
    · simp [overlapTwoInits, h, countGetItem, countGetItem_append, e1, e2]
    · simp [runInit, h, countGetItem, e1]

/-- C5 amended witness: concrete sequential no-op after a completed
init, and the two-reads-vs-one counts on a concrete fresh helper. -/
theorem init_noop_when_initialized_overlap_rereads_witness :
    runInit (constAdapter (.ok (.num 5)))
        { key := "k", defaultValue := .null, value := .num 5,
          initialized := true } () =
      ({ key := "k", defaultValue := .null, value := .num 5,
         initialized := true }, (), []) ∧
    countGetItem (overlapTwoInits (constAdapter (.ok (.num 5)))
      (freshHelper "k" .null) ()).2.2 = 2 ∧
    countGetItem (runInit (constAdapter (.ok (.num 5)))
      (freshHelper "k" .null) ()).2.2 = 1 :=
  ⟨(init_noop_when_initialized_overlap_rereads Unit
      (constAdapter (.ok (.num 5)))
      { key := "k", defaultValue := .null, value := .num 5,
        initialized := true } ()).1 rfl,
   (init_noop_when_initialized_overlap_rereads Unit
      (constAdapter (.ok (.num 5))) (freshHelper "k" .null) ()).2 rfl⟩

/-- C7 counterexample: with an adapter whose `setItem` throws, a
committed `set` on an initialized helper keeps the new value in memory,
but the exception escapes the write call site (`thrown = some ()`) —
`onChange` has no try/catch in this version — contradicting "caught and
logged at the write call site and does not propagate". -/
theorem setItem_failure_propagates_cex :
    (StorageHelper.setOp failingWriteAdapter
      { key := "k", defaultValue := .null, value := .num 0,
        initialized := true } () (.num 1)).thrown = some () ∧
    (StorageHelper.setOp failingWriteAdapter
      { key := "k", defaultValue := .null, value := .num 0,
        initialized := true } () (.num 1)).helper.value = .num 1 := by
  decide

/-- C7 amended: when a committed write's `setItem` throws, the in-memory
value still holds the newly committed value (the box committed before
the listener ran — no rollback) and the backend is unchanged, but the
error is not caught at the write call site: it propagates to the caller
of the mutating operation. -/
theorem setItem_failure_keeps_value_but_propagates (σ : Type)
    (ad : StorageAdapter σ) (st : StorageHelper) (b : σ) (v : Val)
    (hinit : st.initialized = true) (hneq : ¬ v = st.value)
    (hfail : ad.setItem b st.key v = .error ()) :
    (StorageHelper.setOp ad st b v).helper.value = v ∧
    (StorageHelper.setOp ad st b v).thrown = some () ∧
    (StorageHelper.setOp ad st b v).backend = b := by
  simp [StorageHelper.setOp, commitValue, hneq, hinit, hfail]

/-- C7 amended witness: the concrete throwing-write adapter. -/
theorem setItem_failure_keeps_value_but_propagates_witness :
    (StorageHelper.setOp failingWriteAdapter
      { key := "k2", defaultValue := .null, value := .num 0,
        initialized := true } () (.num 2)).helper.value = .num 2 ∧
    (StorageHelper.setOp failingWriteAdapter
      { key := "k2", defaultValue := .null, value := .num 0,
        initialized := true } () (.num 2)).thrown = some () ∧
    (StorageHelper.setOp failingWriteAdapter
      { key := "k2", defaultValue := .null, value := .num 0,
        initialized := true } () (.num 2)).backend = () :=
  setItem_failure_keeps_value_but_propagates Unit failingWriteAdapter
    { key := "k2", defaultValue := .null, value := .num 0,
      initialized := true } () (.num 2) rfl (by decide) rfl

/-- C8: on an initialized helper bound to the namespaced file adapter,
`clear()` leaves `get()` at the null sentinel and removes the backend
entry for the key, so a subsequent adapter `getItem` yields absence
(`undefined`).  The disjunctive hypothesis is the post-init in-sync
invariant: either the in-memory value is not already null (so the clear
commits and deletes), or the backend entry is already absent. -/
theorem clear_empties_value_and_backend (st : StorageHelper)
    (clusterId : String) (s : LensLocalStorageModel)
    (hinit : st.initialized = true)
    (hsync : ¬ st.value = Val.null ∨
      lookupKey st.key (getState s clusterId) = none) :
    (StorageHelper.clearOp (createLocalStorageAdapter clusterId) st
      s).helper.value = Val.null ∧
    lookupKey st.key
      (getState (StorageHelper.clearOp (createLocalStorageAdapter clusterId)
        st s).backend clusterId) = none ∧
    (createLocalStorageAdapter clusterId).getItem
      (StorageHelper.clearOp (createLocalStorageAdapter clusterId) st
        s).backend st.key = .ok Val.undef := by
  refine ⟨StorageHelper.setOp_value _ st s Val.null, ?_⟩
  by_cases hv : Val.null = st.value
  · have hb : (StorageHelper.clearOp (createLocalStorageAdapter clusterId)
        st s).backend = s := by
      simp [StorageHelper.clearOp, StorageHelper.setOp, hv]
    have habs : lookupKey st.key (getState s clusterId) = none := by
      rcases hsync with hne | habs
      · exact absurd hv.symm hne
      · exact habs
    rw [hb]
    exact ⟨habs, by simp [createLocalStorageAdapter, habs]⟩
  · have hb : (StorageHelper.clearOp (createLocalStorageAdapter clusterId)
        st s).backend =
        setState s clusterId (fun state => removeKey st.key state) := by
      simp [StorageHelper.clearOp, StorageHelper.setOp, hv, commitValue,
        hinit, createLocalStorageAdapter, hasValue]
    rw [hb]
    have hnone :
        lookupKey st.key
          (getState (setState s clusterId fun state =>
            removeKey st.key state) clusterId) = none := by
      rw [getState_setState_same, lookupKey_removeKey_same]
    exact ⟨hnone, by simp [createLocalStorageAdapter, hnone]⟩

/-- C8 witness: a concrete initialized `dock` helper over a store that
holds the key. -/
theorem clear_empties_value_and_backend_witness :
    (StorageHelper.clearOp (createLocalStorageAdapter "c1")
      { key := "dock", defaultValue := .null, value := .num 3,
        initialized := true }
      [("c1", [("dock", .num 3)])]).helper.value = Val.null ∧
    lookupKey "dock"
      (getState (StorageHelper.clearOp (createLocalStorageAdapter "c1")
        { key := "dock", defaultValue := .null, value := .num 3,
          initialized := true }
        [("c1", [("dock", .num 3)])]).backend "c1") = none ∧
    (createLocalStorageAdapter "c1").getItem
      (StorageHelper.clearOp (createLocalStorageAdapter "c1")
        { key := "dock", defaultValue := .null, value := .num 3,
          initialized := true }
        [("c1", [("dock", .num 3)])]).backend "dock" = .ok Val.undef :=
  clear_empties_value_and_backend
    { key := "dock", defaultValue := .null, value := .num 3,
      initialized := true } "c1" [("c1", [("dock", .num 3)])] rfl
    (Or.inl (by decide))

/-- C9: writing a null/undefined value for `(namespace, key)` through the
aggregated store's adapter path deletes the key: the namespace record no
longer owns it and `getItem` yields absence; and under every sequence of
store writes starting from the empty store, no key is ever stored as an
explicit null/undefined tombstone entry. -/
theorem cleared_key_never_tombstoned :
    (∀ (s : LensLocalStorageModel) (ns k : String) (v : Val),
      hasValue v = false →
      lookupKey k (getState (runStoreWrites s [(ns, k, v)]) ns) = none ∧
      (createLocalStorageAdapter ns).getItem (runStoreWrites s [(ns, k, v)])
        k = .ok Val.undef) ∧
    (∀ ops, noTombstones (runStoreWrites [] ops)) := by
  constructor
  · intro s ns k v hv
    have hnone : lookupKey k (getState (runStoreWrites s [(ns, k, v)]) ns)
        = none := by
      show lookupKey k (getState (setState s ns fun state =>
        if hasValue v then mapSet k v state else removeKey k state) ns) = none
      rw [getState_setState_same, if_neg (by simp [hv]),
        lookupKey_removeKey_same]
    refine ⟨hnone, ?_⟩
    simp only [runStoreWrites] at hnone ⊢
    simp [createLocalStorageAdapter, hnone]
  · exact fun ops => noTombstones_runStoreWrites ops [] noTombstones_nil

/-- C9 witness: the spec's deletion scenario
`setState("clusterA","k",{x:1}); setState("clusterA","k",null)`. -/
theorem cleared_key_never_tombstoned_witness :
    hasValue Val.null = false ∧
    lookupKey "k" (getState (runStoreWrites
      (runStoreWrites [] [("clusterA", "k",
        Val.obj (.cons "x" (.num 1) .nil))])
      [("clusterA", "k", Val.null)]) "clusterA") = none ∧
    noTombstones (runStoreWrites []
      [("clusterA", "k", Val.obj (.cons "x" (.num 1) .nil)),
       ("clusterA", "k", Val.null)]) :=
  ⟨by decide,
   (cleared_key_never_tombstoned.1
     (runStoreWrites [] [("clusterA", "k",
       Val.obj (.cons "x" (.num 1) .nil))])
     "clusterA" "k" Val.null (by decide)).1,
   cleared_key_never_tombstoned.2
     [("clusterA", "k", Val.obj (.cons "x" (.num 1) .nil)),
      ("clusterA", "k", Val.null)]⟩

end Lens
